import Mathlib

/-!
Verification of `filament/backend/src/opengl/platforms/PlatformEGLAndroid.cpp`.

The translation unit is embedded shallowly: each operation becomes a pure
Lean function from an explicit environment (the outcomes of the driver/OS
calls the code makes) to its result together with a trace of the
driver-visible events it performs, in source order.  Machine enum values
(EGL/GL constants, AHardwareBuffer formats) are the numeric values of the
Android/EGL headers, modelled as `Nat`.
-/

namespace PlatformEGLAndroid

/-! ### EGL / GL / AHardwareBuffer constants (numeric values from the headers) -/

def EGL_NONE : Nat := 12344
def EGL_TRUE : Nat := 1
def EGL_IMAGE_PRESERVED_KHR : Nat := 12498
def EGL_PROTECTED_CONTENT_EXT : Nat := 13024
def EGL_GL_COLORSPACE : Nat := 12445
def EGL_GL_COLORSPACE_SRGB : Nat := 12425
def EGL_NO_IMAGE_KHR : Nat := 0

def GL_TEXTURE_2D : Nat := 3553
def GL_TEXTURE_EXTERNAL_OES : Nat := 36197
def GL_TEXTURE0 : Nat := 33984
def GL_TEXTURE_MIN_FILTER : Nat := 10241
def GL_TEXTURE_MAG_FILTER : Nat := 10240
def GL_LINEAR : Nat := 9729
def GL_LINEAR_MIPMAP_LINEAR : Nat := 9987
def GL_NO_ERROR : Nat := 0

def AHARDWAREBUFFER_FORMAT_R8G8B8A8_UNORM : Nat := 1
def AHARDWAREBUFFER_FORMAT_R8G8B8X8_UNORM : Nat := 2
def AHARDWAREBUFFER_FORMAT_R8G8B8_UNORM : Nat := 3
def AHARDWAREBUFFER_FORMAT_R5G6B5_UNORM : Nat := 4
def AHARDWAREBUFFER_FORMAT_R16G16B16A16_FLOAT : Nat := 22
def AHARDWAREBUFFER_FORMAT_R10G10B10A2_UNORM : Nat := 43
def AHARDWAREBUFFER_FORMAT_D16_UNORM : Nat := 48
def AHARDWAREBUFFER_FORMAT_D24_UNORM : Nat := 49
def AHARDWAREBUFFER_FORMAT_D24_UNORM_S8_UINT : Nat := 50
def AHARDWAREBUFFER_FORMAT_D32_FLOAT : Nat := 51
def AHARDWAREBUFFER_FORMAT_D32_FLOAT_S8_UINT : Nat := 52
def AHARDWAREBUFFER_FORMAT_S8_UINT : Nat := 53

/-! ### Format classifier (createExternalImageTexture, lines 224-240)

The source initialises `isExternalFormat = true` and a switch over the
hardware buffer format sets it to `false` for the explicit allow-list. -/

def isExternalFormat (format : Nat) : Bool :=
  if format = AHARDWAREBUFFER_FORMAT_R8G8B8A8_UNORM then false
  else if format = AHARDWAREBUFFER_FORMAT_R8G8B8X8_UNORM then false
  else if format = AHARDWAREBUFFER_FORMAT_R8G8B8_UNORM then false
  else if format = AHARDWAREBUFFER_FORMAT_R5G6B5_UNORM then false
  else if format = AHARDWAREBUFFER_FORMAT_R16G16B16A16_FLOAT then false
  else if format = AHARDWAREBUFFER_FORMAT_R10G10B10A2_UNORM then false
  else if format = AHARDWAREBUFFER_FORMAT_D16_UNORM then false
  else if format = AHARDWAREBUFFER_FORMAT_D24_UNORM then false
  else if format = AHARDWAREBUFFER_FORMAT_D24_UNORM_S8_UINT then false
  else if format = AHARDWAREBUFFER_FORMAT_D32_FLOAT then false
  else if format = AHARDWAREBUFFER_FORMAT_D32_FLOAT_S8_UINT then false
  else if format = AHARDWAREBUFFER_FORMAT_S8_UINT then false
  else true

/-! ### createExternalImageTexture (lines 207-306) -/

/-- The local `isSrgbTransfer` variable of createExternalImageTexture is the
constant `false` in the source (line 254). -/
def isSrgbTransfer : Bool := false

/-- The `imageAttrs` array of createExternalImageTexture (lines 246-258):
EGL_IMAGE_PRESERVED_KHR = EGL_TRUE always, padded with EGL_NONE; the sRGB
colorspace pair is appended at index 2 only when `isSrgbTransfer` holds; the
protected-content block is commented out in the source (lines 260-263). -/
def createImageAttrs : List Nat :=
  if isSrgbTransfer then
    [EGL_IMAGE_PRESERVED_KHR, EGL_TRUE, EGL_GL_COLORSPACE, EGL_GL_COLORSPACE_SRGB,
     EGL_NONE, EGL_NONE, EGL_NONE]
  else
    [EGL_IMAGE_PRESERVED_KHR, EGL_TRUE, EGL_NONE, EGL_NONE, EGL_NONE, EGL_NONE, EGL_NONE]

structure ExternalTexture where
  id : Nat
  target : Nat
  deriving DecidableEq, Repr

/-- Outcomes of the driver/OS calls createExternalImageTexture makes:
whether the `new(std::nothrow) ExternalTexture` allocation succeeds, the
hardware buffer's declared format, whether eglCreateImageKHR returns an
image, the texture name produced by glGenTextures, and the values
glGetError returns at the three checkpoints in the source (after
glBindTexture, after glEGLImageTargetTexture2DOES, after mipmap setup). -/
structure CreateEnv where
  allocOk : Bool
  format : Nat
  eglImageOk : Bool
  texId : Nat
  errAfterBind : Nat
  errAfterAttach : Nat
  errAfterMipmap : Nat
  deriving DecidableEq, Repr

/-- Driver-visible events of createExternalImageTexture, in call order. -/
inductive GLEvent where
  | eglCreateImage (attrs : List Nat)
  | genTextures (id : Nat)
  | activeTexture (unit : Nat)
  | bindTexture (target id : Nat)
  | attachImage (target : Nat)
  | texParameteri (target pname value : Nat)
  | generateMipmap (target : Nat)
  | deleteTextures (id : Nat)
  | eglDestroyImage
  | logError
  deriving DecidableEq, Repr

def isMipOrFilterCall : GLEvent → Bool
  | GLEvent.texParameteri _ _ _ => true
  | GLEvent.generateMipmap _ => true
  | _ => false

def isDeleteTexturesEvent : GLEvent → Bool
  | GLEvent.deleteTextures _ => true
  | _ => false

def isEglDestroyGLEvent : GLEvent → Bool
  | GLEvent.eglDestroyImage => true
  | _ => false

/-- Shallow embedding of PlatformEGLAndroid::createExternalImageTexture
(lines 207-306).  Control flow follows the source: allocation check, format
classification, eglCreateImageKHR (failure deletes the record and returns
null), glGenTextures / glActiveTexture / glBindTexture, glGetError check
with full rollback, glEGLImageTargetTexture2DOES, glGetError check that only
logs, and — for non-external formats only — filter state, mipmap generation
and a final glGetError check that only logs. -/
def createExternalImageTexture (env : CreateEnv) : Option ExternalTexture × List GLEvent :=
  if !env.allocOk then
    (none, [GLEvent.logError])
  else
    let extFmt := isExternalFormat env.format
    if !env.eglImageOk then
      (none, [GLEvent.eglCreateImage createImageAttrs, GLEvent.logError])
    else
      let target := if extFmt then GL_TEXTURE_EXTERNAL_OES else GL_TEXTURE_2D
      let pre := [GLEvent.eglCreateImage createImageAttrs,
                  GLEvent.genTextures env.texId,
                  GLEvent.activeTexture GL_TEXTURE0,
                  GLEvent.bindTexture target env.texId]
      if env.errAfterBind ≠ GL_NO_ERROR then
        (none, pre ++ [GLEvent.logError, GLEvent.deleteTextures env.texId,
                       GLEvent.eglDestroyImage])
      else
        let afterAttach := pre ++ [GLEvent.attachImage target] ++
          (if env.errAfterAttach ≠ GL_NO_ERROR then [GLEvent.logError] else [])
        let afterMips :=
          if extFmt then afterAttach
          else afterAttach ++
            [GLEvent.texParameteri GL_TEXTURE_2D GL_TEXTURE_MIN_FILTER GL_LINEAR_MIPMAP_LINEAR,
             GLEvent.texParameteri GL_TEXTURE_2D GL_TEXTURE_MAG_FILTER GL_LINEAR,
             GLEvent.generateMipmap GL_TEXTURE_2D] ++
            (if env.errAfterMipmap ≠ GL_NO_ERROR then [GLEvent.logError] else [])
        (some ⟨env.texId, target⟩, afterMips)

/-! ### transformAcquiredImage (lines 332-379) -/

/-- The AcquiredImage producer contract of backend/AcquiredImage.h: image
handle, release callback (modelled by an opaque numeric identity), user
data, dispatch handler. -/
structure AcquiredImage where
  image : Nat
  callback : Nat
  userData : Nat
  handler : Nat
  deriving DecidableEq, Repr

/-- The Closure record of transformAcquiredImage (lines 362-367). -/
structure Closure where
  acquiredImage : AcquiredImage
  display : Nat
  deriving DecidableEq, Repr

/-- Outcomes of the driver/OS calls transformAcquiredImage makes: whether
eglGetNativeClientBufferANDROID returns a client buffer, the running OS
version (the __builtin_available(android 26) gate), the protected-content
bit of the buffer's usage flags, the handle eglCreateImageKHR returns
(EGL_NO_IMAGE_KHR, i.e. 0, means the driver rejected it), whether the
`new(std::nothrow) Closure` allocation succeeds, and mEGLDisplay. -/
structure TransformEnv where
  clientBufferOk : Bool
  osVersion : Nat
  usageProtected : Bool
  eglImageHandle : Nat
  allocClosureOk : Bool
  display : Nat
  deriving DecidableEq, Repr

/-- Modelled from the spec: the class `PlatformEGL::Config` is declared in
`backend/platforms/PlatformEGL.h`, which is outside this translation unit.
Section 6 of the design describes the driver-image attribute list as ordered
key/value pairs terminated by a sentinel; the source default-constructs a
`Config` and inserts pairs by indexed assignment, so the model is an ordered
pair list, initially empty, whose data() form flattens the pairs and appends
the EGL_NONE sentinel. -/
def configData (pairs : List (Nat × Nat)) : List Nat :=
  pairs.foldr (fun p acc => p.1 :: p.2 :: acc) [EGL_NONE]

/-- The attribute pairs transformAcquiredImage inserts into its
default-constructed Config (lines 342-352): the protected-content pair
exactly when the OS version is at least 26 (the __builtin_available gate)
and the buffer usage has the protected-content bit; nothing otherwise. -/
def transformConfig (env : TransformEnv) : List (Nat × Nat) :=
  if 26 ≤ env.osVersion then
    if env.usageProtected then [(EGL_PROTECTED_CONTENT_EXT, EGL_TRUE)] else []
  else []

/-- Result of transformAcquiredImage: `empty` is the value-initialised
`return {}` (an AcquiredImage with null image and callback); `success`
carries the created EGLImage handle, the closure pointer stored in the
returned userData field (`none` models a null pointer from a failed
`new(std::nothrow)`), and the source handler passed through. -/
inductive TransformResult where
  | empty
  | success (eglImage : Nat) (closure : Option Closure) (handler : Nat)
  deriving DecidableEq, Repr

/-- Driver-visible events of transformAcquiredImage and of the patched
release callback it returns, in call order. -/
inductive TEvent where
  | getNativeClientBuffer
  | eglCreateImage (attrs : List Nat)
  | allocClosure
  | eglDestroyImage (display image : Nat)
  | logDestroyFailed
  | invokeProducerCallback (callback image userData : Nat)
  | freeClosure
  | logError
  deriving DecidableEq, Repr

def isInvokeEvent : TEvent → Bool
  | TEvent.invokeProducerCallback _ _ _ => true
  | _ => false

def isDestroyImageEvent : TEvent → Bool
  | TEvent.eglDestroyImage _ _ => true
  | _ => false

def isAllocClosureEvent : TEvent → Bool
  | TEvent.allocClosure => true
  | _ => false

def isEglCreateImageEvent : TEvent → Bool
  | TEvent.eglCreateImage _ => true
  | _ => false

/-- Shallow embedding of PlatformEGLAndroid::transformAcquiredImage
(lines 332-379).  Control flow follows the source: null client buffer
logs and returns {}; a rejected eglCreateImageKHR logs and returns {};
otherwise a Closure is allocated with new(std::nothrow) — the source never
checks the result for null — and the AcquiredImage
{eglImage, patchedCallback, closure, source.handler} is returned. -/
def transformAcquiredImage (source : AcquiredImage) (env : TransformEnv) :
    TransformResult × List TEvent :=
  if !env.clientBufferOk then
    (TransformResult.empty, [TEvent.getNativeClientBuffer, TEvent.logError])
  else
    let attrs := configData (transformConfig env)
    if env.eglImageHandle = EGL_NO_IMAGE_KHR then
      (TransformResult.empty,
       [TEvent.getNativeClientBuffer, TEvent.eglCreateImage attrs, TEvent.logError])
    else
      let closure : Option Closure :=
        if env.allocClosureOk then some ⟨source, env.display⟩ else none
      (TransformResult.success env.eglImageHandle closure source.handler,
       [TEvent.getNativeClientBuffer, TEvent.eglCreateImage attrs, TEvent.allocClosure])

/-- Shallow embedding of the patched release callback lambda
(lines 369-376), run with the closure the transform built, the image handle
the driver hands back, and the outcome of eglDestroyImageKHR: destroy the
EGLImage (logging on EGL_FALSE but continuing), invoke the original
producer callback with its original image handle and user data, delete the
closure. -/
def patchedCallbackRun (closure : Closure) (image : Nat) (destroyOk : Bool) :
    List TEvent :=
  TEvent.eglDestroyImage closure.display image ::
    ((if destroyOk then [] else [TEvent.logDestroyFailed]) ++
     [TEvent.invokeProducerCallback closure.acquiredImage.callback
        closure.acquiredImage.image closure.acquiredImage.userData,
      TEvent.freeClosure])

/-! ### Frame pacing bridge: beginFrame / preCommit (lines 136-158) -/

/-- The performance-hint state of the platform object: whether
mPerformanceHintSession.isValid(), and mStartTimeOfActualWork in
nanoseconds. -/
structure PerfState where
  sessionValid : Bool
  startTimeOfActualWork : Int
  deriving DecidableEq, Repr

/-- Calls beginFrame / preCommit make, in order: the two timing calls on the
performance-hint session, and the delegation to the underlying PlatformEGL. -/
inductive FEvent where
  | updateTargetWorkDuration (durationNs : Int)
  | reportActualWorkDuration (durationNs : Int)
  | delegateBeginFrame (monotonicClockNs refreshIntervalNs : Int) (frameId : Nat)
  | delegatePreCommit
  deriving DecidableEq, Repr

def isTimingCall : FEvent → Bool
  | FEvent.updateTargetWorkDuration _ => true
  | FEvent.reportActualWorkDuration _ => true
  | _ => false

/-- Shallow embedding of PlatformEGLAndroid::beginFrame (lines 136-149):
when the session is valid, a non-positive refresh interval is replaced by
16'666'667 ns, the start time is recorded, and the (possibly defaulted)
target is pushed; in all cases PlatformEGL::beginFrame is then called with
the current argument values. -/
def beginFrame (s : PerfState) (monotonicClockNs refreshIntervalNs : Int)
    (frameId : Nat) : PerfState × List FEvent :=
  if s.sessionValid then
    let interval := if refreshIntervalNs ≤ 0 then 16666667 else refreshIntervalNs
    ({ s with startTimeOfActualWork := monotonicClockNs },
     [FEvent.updateTargetWorkDuration interval,
      FEvent.delegateBeginFrame monotonicClockNs interval frameId])
  else
    (s, [FEvent.delegateBeginFrame monotonicClockNs refreshIntervalNs frameId])

/-- Shallow embedding of PlatformEGLAndroid::preCommit (lines 151-158):
when the session is valid, report clock::now() minus mStartTimeOfActualWork
as the actual work duration; then call PlatformEGL::preCommit. -/
def preCommit (s : PerfState) (nowNs : Int) : List FEvent :=
  if s.sessionValid then
    [FEvent.reportActualWorkDuration (nowNs - s.startTimeOfActualWork),
     FEvent.delegatePreCommit]
  else
    [FEvent.delegatePreCommit]

end PlatformEGLAndroid

namespace PlatformEGLAndroid

/-! ## Claim theorems -/

/-- C3: for every hardware-buffer pixel format, the classifier in
createExternalImageTexture returns "not opaque" (isExternalFormat = false,
sampled as GL_TEXTURE_2D) exactly when the format is one of the fixed
allow-list of RGBA/RGBX/RGB/RGB565/half-float-RGBA/10-10-10-2/depth/stencil
formats, and "opaque" (external sampling) for every other format value. -/
theorem format_classifier_allowlist (format : Nat) :
    isExternalFormat format = false ↔
      (format = AHARDWAREBUFFER_FORMAT_R8G8B8A8_UNORM ∨
       format = AHARDWAREBUFFER_FORMAT_R8G8B8X8_UNORM ∨
       format = AHARDWAREBUFFER_FORMAT_R8G8B8_UNORM ∨
       format = AHARDWAREBUFFER_FORMAT_R5G6B5_UNORM ∨
       format = AHARDWAREBUFFER_FORMAT_R16G16B16A16_FLOAT ∨
       format = AHARDWAREBUFFER_FORMAT_R10G10B10A2_UNORM ∨
       format = AHARDWAREBUFFER_FORMAT_D16_UNORM ∨
       format = AHARDWAREBUFFER_FORMAT_D24_UNORM ∨
       format = AHARDWAREBUFFER_FORMAT_D24_UNORM_S8_UINT ∨
       format = AHARDWAREBUFFER_FORMAT_D32_FLOAT ∨
       format = AHARDWAREBUFFER_FORMAT_D32_FLOAT_S8_UINT ∨
       format = AHARDWAREBUFFER_FORMAT_S8_UINT) := by
  constructor
  · intro h
    by_contra hc
    push_neg at hc
    obtain ⟨h1, h2, h3, h4, h5, h6, h7, h8, h9, h10, h11, h12⟩ := hc
    unfold isExternalFormat at h
    simp [h1, h2, h3, h4, h5, h6, h7, h8, h9, h10, h11, h12] at h
  · intro h
    rcases h with h | h | h | h | h | h | h | h | h | h | h | h <;> subst h <;> decide

/-- Witness for C3 at concrete formats: RGB565 is in the allow-list and the
undocumented format value 35 (a YUV format) classifies as opaque. -/
theorem format_classifier_allowlist_witness :
    isExternalFormat AHARDWAREBUFFER_FORMAT_R5G6B5_UNORM = false
    ∧ isExternalFormat 35 = true :=
  ⟨(format_classifier_allowlist AHARDWAREBUFFER_FORMAT_R5G6B5_UNORM).mpr (by decide),
   by decide⟩

/-- C5: beginFrame with a valid performance-hint session pushes exactly one
target-duration update, whose value is 16,666,667 ns when the supplied
interval is non-positive and the supplied interval itself otherwise. -/
theorem beginFrame_target_duration (startTime monotonic refresh : Int) (frameId : Nat) :
    FEvent.updateTargetWorkDuration (if refresh ≤ 0 then 16666667 else refresh)
        ∈ (beginFrame ⟨true, startTime⟩ monotonic refresh frameId).2
    ∧ (beginFrame ⟨true, startTime⟩ monotonic refresh frameId).2.countP isTimingCall = 1 := by
  unfold beginFrame
  simp [isTimingCall]

/-- C6: with an invalid performance-hint session, beginFrame and preCommit
issue no timing calls at all and still delegate to the underlying
PlatformEGL; with a valid session, preCommit reports the current time minus
the start time recorded by beginFrame. -/
theorem perf_session_gating (s0 monotonic refresh now : Int) (frameId : Nat) :
    (beginFrame ⟨false, s0⟩ monotonic refresh frameId).2.countP isTimingCall = 0
    ∧ FEvent.delegateBeginFrame monotonic refresh frameId
        ∈ (beginFrame ⟨false, s0⟩ monotonic refresh frameId).2
    ∧ (preCommit ⟨false, s0⟩ now).countP isTimingCall = 0
    ∧ FEvent.delegatePreCommit ∈ preCommit ⟨false, s0⟩ now
    ∧ FEvent.reportActualWorkDuration (now - monotonic)
        ∈ preCommit (beginFrame ⟨true, s0⟩ monotonic refresh frameId).1 now := by
  unfold beginFrame preCommit
  simp [isTimingCall]

end PlatformEGLAndroid

namespace PlatformEGLAndroid

/-- C1: for every AcquiredImage successfully transformed (client buffer
obtained, eglCreateImageKHR succeeded, closure allocated), the returned
value wraps the closure ⟨source, display⟩, and the patched callback, run on
the created EGLImage handle, first destroys that EGLImage (exactly one
destroy, first event; a failed destroy is logged but the release goes on),
then invokes the original producer callback exactly once with the original
image handle and user data, and finishes by freeing the closure (last
event). -/
theorem transform_patched_callback_contract (source : AcquiredImage)
    (env : TransformEnv) (dOk : Bool)
    (hcb : env.clientBufferOk = true)
    (himg : env.eglImageHandle ≠ EGL_NO_IMAGE_KHR)
    (halloc : env.allocClosureOk = true) :
    (transformAcquiredImage source env).1
        = TransformResult.success env.eglImageHandle (some ⟨source, env.display⟩) source.handler
    ∧ (patchedCallbackRun ⟨source, env.display⟩ env.eglImageHandle dOk).head?
        = some (TEvent.eglDestroyImage env.display env.eglImageHandle)
    ∧ (patchedCallbackRun ⟨source, env.display⟩ env.eglImageHandle dOk).getLast?
        = some TEvent.freeClosure
    ∧ (patchedCallbackRun ⟨source, env.display⟩ env.eglImageHandle dOk).countP isInvokeEvent = 1
    ∧ TEvent.invokeProducerCallback source.callback source.image source.userData
        ∈ patchedCallbackRun ⟨source, env.display⟩ env.eglImageHandle dOk
    ∧ (patchedCallbackRun ⟨source, env.display⟩ env.eglImageHandle dOk).countP isDestroyImageEvent = 1
    ∧ (dOk = false →
        TEvent.logDestroyFailed ∈ patchedCallbackRun ⟨source, env.display⟩ env.eglImageHandle dOk) := by
  unfold transformAcquiredImage patchedCallbackRun
  cases dOk <;> simp [hcb, himg, halloc, isInvokeEvent, isDestroyImageEvent]

/-- Witness for C1 at a concrete source and environment, with a failing
eglDestroyImageKHR. -/
theorem transform_patched_callback_contract_witness :
    (transformAcquiredImage ⟨10, 11, 12, 13⟩ ⟨true, 30, false, 42, true, 7⟩).1
        = TransformResult.success 42 (some ⟨⟨10, 11, 12, 13⟩, 7⟩) 13
    ∧ (patchedCallbackRun ⟨⟨10, 11, 12, 13⟩, 7⟩ 42 false).countP isInvokeEvent = 1
    ∧ TEvent.invokeProducerCallback 11 10 12 ∈ patchedCallbackRun ⟨⟨10, 11, 12, 13⟩, 7⟩ 42 false
    ∧ TEvent.logDestroyFailed ∈ patchedCallbackRun ⟨⟨10, 11, 12, 13⟩, 7⟩ 42 false := by
  have h := transform_patched_callback_contract ⟨10, 11, 12, 13⟩
      ⟨true, 30, false, 42, true, 7⟩ false rfl (by decide) rfl
  exact ⟨h.1, h.2.2.2.1, h.2.2.2.2.1, h.2.2.2.2.2.2 rfl⟩

/-- C10: whenever transformAcquiredImage fails (returns the empty
AcquiredImage), the original producer release callback is never invoked by
this code: the call's trace contains no producer-callback invocation. -/
theorem transform_failure_no_producer_callback (source : AcquiredImage)
    (env : TransformEnv)
    (_hfail : (transformAcquiredImage source env).1 = TransformResult.empty) :
    (transformAcquiredImage source env).2.countP isInvokeEvent = 0 := by
  unfold transformAcquiredImage
  split_ifs <;> simp [isInvokeEvent]

/-- Witness for C10 at a failing acquisition (no client buffer). -/
theorem transform_failure_no_producer_callback_witness :
    (transformAcquiredImage ⟨1, 2, 3, 4⟩ ⟨false, 30, false, 0, true, 7⟩).2.countP isInvokeEvent = 0 :=
  transform_failure_no_producer_callback ⟨1, 2, 3, 4⟩ ⟨false, 30, false, 0, true, 7⟩ (by decide)

/-- C8: transformAcquiredImage returns the empty AcquiredImage exactly when
the client buffer is unavailable or the driver rejects the image, and on
failure no partial state is retained: the Closure allocation never runs,
and in the client-buffer case eglCreateImageKHR is not even attempted. -/
theorem transform_failure_characterisation (source : AcquiredImage) (env : TransformEnv) :
    ((transformAcquiredImage source env).1 = TransformResult.empty
        ↔ (env.clientBufferOk = false ∨ env.eglImageHandle = EGL_NO_IMAGE_KHR))
    ∧ ((transformAcquiredImage source env).1 = TransformResult.empty →
        (transformAcquiredImage source env).2.countP isAllocClosureEvent = 0)
    ∧ (env.clientBufferOk = false →
        (transformAcquiredImage source env).2.countP isEglCreateImageEvent = 0) := by
  unfold transformAcquiredImage
  split_ifs with h1 h2 <;>
    simp_all [isAllocClosureEvent, isEglCreateImageEvent]

/-- Witness for C8: a driver-rejected image yields the empty result with no
closure allocation, by the characterisation theorem. -/
theorem transform_failure_characterisation_witness :
    (transformAcquiredImage ⟨1, 2, 3, 4⟩ ⟨true, 30, false, 0, true, 7⟩).2.countP isAllocClosureEvent = 0 :=
  (transform_failure_characterisation ⟨1, 2, 3, 4⟩ ⟨true, 30, false, 0, true, 7⟩).2.1 (by decide)

/-- C9 (code bug): when the `new(std::nothrow) Closure` allocation fails in
transformAcquiredImage, the source performs no null check: the call still
returns a non-empty AcquiredImage whose userData is the null closure
pointer, and the created EGLImage is not destroyed — no failure return and
no rollback, unlike createExternalImageTexture, whose record-allocation
failure (last conjunct) does return null. -/
theorem closure_alloc_failure_unchecked :
    (transformAcquiredImage ⟨1, 2, 3, 4⟩ ⟨true, 30, false, 42, false, 7⟩).1
        = TransformResult.success 42 none 4
    ∧ ¬ (transformAcquiredImage ⟨1, 2, 3, 4⟩ ⟨true, 30, false, 42, false, 7⟩).1
        = TransformResult.empty
    ∧ (transformAcquiredImage ⟨1, 2, 3, 4⟩ ⟨true, 30, false, 42, false, 7⟩).2.countP isDestroyImageEvent = 0
    ∧ (createExternalImageTexture ⟨false, 1, true, 7, 0, 0, 0⟩).1 = none := by
  decide

/-- C4 counterexample: for a protected buffer on OS version 30,
transformAcquiredImage's attribute list is exactly the protected-content
pair with the sentinel — the image-preserved attribute is absent, refuting
the claim that the list always contains it. -/
theorem transform_attrs_missing_preserved_counterexample :
    transformConfig ⟨true, 30, true, 42, true, 7⟩ = [(EGL_PROTECTED_CONTENT_EXT, EGL_TRUE)]
    ∧ ¬ EGL_IMAGE_PRESERVED_KHR ∈ configData (transformConfig ⟨true, 30, true, 42, true, 7⟩)
    ∧ (transformAcquiredImage ⟨1, 2, 3, 4⟩ ⟨true, 30, true, 42, true, 7⟩).2
        = [TEvent.getNativeClientBuffer,
           TEvent.eglCreateImage [EGL_PROTECTED_CONTENT_EXT, EGL_TRUE, EGL_NONE],
           TEvent.allocClosure] := by
  decide

/-- C4 (amended): in transformAcquiredImage the attribute list contains the
protected-content attribute exactly when the buffer's usage flags include
the protected-content bit and the OS version is at least 26, and never
contains the image-preserved attribute; the image-preserved attribute (set
to true) heads the attribute list of createExternalImageTexture only. -/
theorem transform_attrs_protected_gating (env : TransformEnv) :
    ((EGL_PROTECTED_CONTENT_EXT, EGL_TRUE) ∈ transformConfig env
        ↔ (26 ≤ env.osVersion ∧ env.usageProtected = true))
    ∧ ¬ EGL_IMAGE_PRESERVED_KHR ∈ configData (transformConfig env)
    ∧ createImageAttrs.take 2 = [EGL_IMAGE_PRESERVED_KHR, EGL_TRUE] := by
  refine ⟨?_, ?_, by decide⟩
  · unfold transformConfig
    split_ifs <;> simp_all
  · unfold transformConfig configData
    split_ifs <;> decide

/-- Witness for C4 (amended) at concrete environments: protected content on
OS 30 yields the protected-content pair; on OS 25 the preserved attribute
is still absent from the data list. -/
theorem transform_attrs_protected_gating_witness :
    (EGL_PROTECTED_CONTENT_EXT, EGL_TRUE) ∈ transformConfig ⟨true, 30, true, 42, true, 7⟩
    ∧ ¬ EGL_IMAGE_PRESERVED_KHR ∈ configData (transformConfig ⟨true, 25, true, 42, true, 7⟩) :=
  ⟨(transform_attrs_protected_gating ⟨true, 30, true, 42, true, 7⟩).1.mpr (by decide),
   (transform_attrs_protected_gating ⟨true, 25, true, 42, true, 7⟩).2.1⟩

end PlatformEGLAndroid

namespace PlatformEGLAndroid

/-- C2 counterexample: with a successfully created EGLImage, a clean
glBindTexture check, and a GL error (GL_INVALID_OPERATION, 1282) reported
after glEGLImageTargetTexture2DOES, createExternalImageTexture logs the
error but still returns the texture: no texture-name release, no EGLImage
destruction, no failure return — refuting the claim that any non-success
error code after image creation triggers rollback and null. -/
theorem create_attach_error_ignored_counterexample :
    (createExternalImageTexture ⟨true, 1, true, 7, 0, 1282, 0⟩).1
        = some ⟨7, GL_TEXTURE_2D⟩
    ∧ (createExternalImageTexture ⟨true, 1, true, 7, 0, 1282, 0⟩).2.countP isDeleteTexturesEvent = 0
    ∧ (createExternalImageTexture ⟨true, 1, true, 7, 0, 1282, 0⟩).2.countP isEglDestroyGLEvent = 0
    ∧ GLEvent.logError ∈ (createExternalImageTexture ⟨true, 1, true, 7, 0, 1282, 0⟩).2 := by
  decide

/-- C2 (amended): after successful EGLImage creation, only the GPU error
check immediately after glBindTexture triggers rollback — the texture name
is released, the EGLImage destroyed, and null returned; when that check
passes, the function returns the texture regardless of errors reported
after image attachment or mipmap generation, which are only logged. -/
theorem create_rollback_only_after_bind_error (env : CreateEnv)
    (halloc : env.allocOk = true) (himg : env.eglImageOk = true) :
    (env.errAfterBind ≠ GL_NO_ERROR →
       (createExternalImageTexture env).1 = none
       ∧ GLEvent.deleteTextures env.texId ∈ (createExternalImageTexture env).2
       ∧ GLEvent.eglDestroyImage ∈ (createExternalImageTexture env).2)
    ∧ (env.errAfterBind = GL_NO_ERROR →
       (createExternalImageTexture env).1
         = some ⟨env.texId,
             if isExternalFormat env.format then GL_TEXTURE_EXTERNAL_OES else GL_TEXTURE_2D⟩) := by
  constructor <;> intro herr <;>
    simp [createExternalImageTexture, halloc, himg, herr]

/-- Witness for C2 (amended): a GL error after glBindTexture rolls the call
back fully at a concrete environment. -/
theorem create_rollback_only_after_bind_error_witness :
    (createExternalImageTexture ⟨true, 35, true, 9, 1282, 0, 0⟩).1 = none
    ∧ GLEvent.deleteTextures 9 ∈ (createExternalImageTexture ⟨true, 35, true, 9, 1282, 0, 0⟩).2
    ∧ GLEvent.eglDestroyImage ∈ (createExternalImageTexture ⟨true, 35, true, 9, 1282, 0, 0⟩).2 :=
  (create_rollback_only_after_bind_error ⟨true, 35, true, 9, 1282, 0, 0⟩ rfl rfl).1 (by decide)

/-- C7: a buffer classified as opaque (external format) never receives any
glTexParameteri or glGenerateMipmap call from createExternalImageTexture,
and a buffer classified as not opaque receives the linear-mipmap-linear min
filter, linear mag filter, and mip-chain generation on GL_TEXTURE_2D on
every execution that returns a texture. -/
theorem mip_filter_by_classification (env : CreateEnv) :
    (isExternalFormat env.format = true →
       (createExternalImageTexture env).2.countP isMipOrFilterCall = 0)
    ∧ (isExternalFormat env.format = false →
       (createExternalImageTexture env).1.isSome = true →
         GLEvent.texParameteri GL_TEXTURE_2D GL_TEXTURE_MIN_FILTER GL_LINEAR_MIPMAP_LINEAR
             ∈ (createExternalImageTexture env).2
         ∧ GLEvent.texParameteri GL_TEXTURE_2D GL_TEXTURE_MAG_FILTER GL_LINEAR
             ∈ (createExternalImageTexture env).2
         ∧ GLEvent.generateMipmap GL_TEXTURE_2D ∈ (createExternalImageTexture env).2) := by
  constructor
  · intro h
    simp only [createExternalImageTexture, h]
    split_ifs <;>
      simp [isMipOrFilterCall, List.countP_append, List.countP_cons]
  · intro h hsome
    simp only [createExternalImageTexture, h] at hsome ⊢
    split_ifs at hsome ⊢ <;> simp_all

/-- Witness for C7: an opaque YUV-format buffer gets no mip or filter
calls; an RGBA buffer on a clean run gets mip-chain generation. -/
theorem mip_filter_by_classification_witness :
    (createExternalImageTexture ⟨true, 35, true, 9, 0, 0, 0⟩).2.countP isMipOrFilterCall = 0
    ∧ GLEvent.generateMipmap GL_TEXTURE_2D ∈ (createExternalImageTexture ⟨true, 1, true, 9, 0, 0, 0⟩).2 :=
  ⟨(mip_filter_by_classification ⟨true, 35, true, 9, 0, 0, 0⟩).1 (by decide),
   ((mip_filter_by_classification ⟨true, 1, true, 9, 0, 0, 0⟩).2 (by decide) (by decide)).2.2⟩

end PlatformEGLAndroid
